import Mathlib

/-!
Shallow embedding of the secure PDF ingestion core of the
financial-document-analyzer backend:

* `backend/app/utils/file_validator.py` — the validation orchestrator
  (`comprehensive_file_validation`) and its sub-validators
  (`validate_filename`, `validate_file_signature`, `validate_mime_type`,
  `validate_pdf_structure`, `detect_malicious_patterns`).
* `backend/app/models/document.py` — the `FinancialDocument` record, its
  tag validator and tag operations, the lifecycle operations
  (`start_processing`, `complete_processing`, `fail_processing`,
  `archive`, `unarchive`) and the dedup queries (`find_by_hash` and the
  inline owner-scoped `find_one` used by the upload route in
  `backend/app/routers/documents.py`).

Modelling conventions:

* Byte buffers are `List Nat` (each entry one byte); Python's
  `bytes.lower()` is ASCII lowercasing, modelled by `byteLower`.
* Exceptions (`FileValidationError`, `MaliciousFileError`) carry distinct
  message strings in the source; each distinct raise site is a distinct
  constructor of `VError`, and a raising function is embedded as
  `Except VError _`.
* External libraries used by the source are oracles passed as arguments:
  the PyPDF2 parse result is a `ParseOutcome` value, the python-magic MIME
  sniff is an `Option String` (`none` = the sniffer raised), and
  `hashlib.sha256(...).hexdigest()` is a function argument
  `sha256hex : List Nat → String`.
* `datetime.now(timezone.utc)` is an abstract instant passed as a `Nat`
  argument `now`.
* A MongoDB collection is a `List FinancialDocument`; `find_one` is
  `List.find?`.
-/

set_option maxRecDepth 100000

namespace FinDoc

/-! ### Bytes and substring search -/

/-- ASCII lowercasing of one byte, as done by Python's `bytes.lower()`. -/
def byteLower (b : Nat) : Nat :=
  if 65 ≤ b ∧ b ≤ 90 then b + 32 else b

/-- Source `bytes.lower()` over a whole buffer. -/
def bytesLower (bs : List Nat) : List Nat :=
  bs.map byteLower

/-- The byte string of an ASCII literal (Python `b'...'`). -/
def ascii (s : String) : List Nat :=
  s.toList.map Char.toNat

/-- Boolean test that `p` is an initial segment of `l`
(Python `bytes.startswith`). -/
def leadsWith [BEq α] : List α → List α → Bool
  | [], _ => true
  | _ :: _, [] => false
  | a :: as, b :: bs => a == b && leadsWith as bs

/-- Boolean test that `p` occurs as a contiguous run inside `l`
(Python's `in` operator on `bytes` and `str`). -/
def containsSub [BEq α] (p : List α) : List α → Bool
  | [] => p.isEmpty
  | b :: bs => leadsWith p (b :: bs) || containsSub p bs

/-! ### Constants from `file_validator.py` -/

/-- Source `DANGEROUS_PDF_PATTERNS`: the hard-block list. -/
def DANGEROUS_PDF_PATTERNS : List (List Nat) :=
  [ascii "/Launch", ascii "<script", ascii "javascript:",
   ascii "/SubmitForm", ascii "/ImportData"]

/-- Source `SUSPICIOUS_PDF_PATTERNS`: the soft watch-list (logged, never blocking). -/
def SUSPICIOUS_PDF_PATTERNS : List (List Nat) :=
  [ascii "/JavaScript", ascii "/JS", ascii "/OpenAction", ascii "/AA",
   ascii "/EmbeddedFile", ascii "/XFA", ascii "/URI"]

/-- Source `MAX_PDF_OBJECTS`. -/
def MAX_PDF_OBJECTS : Nat := 10000

/-- Source `PDF_MAGIC_NUMBERS`. -/
def PDF_MAGIC_NUMBERS : List (List Nat) :=
  [ascii "%PDF-1."]

/-! ### Error taxonomy

Each constructor corresponds to one distinct raise site / message string of
`file_validator.py`.  `FileValidationError` sites: `filenameEmpty`
("Filename cannot be empty"), `notPdfExtension` ("Only PDF files are
allowed"), `pathTraversal`, `filenameTooLong`, `filenameBadChars`,
`sizeExceeded` ("File size exceeds ...MB limit", carrying
`max_size_bytes`), `emptyFile` ("File is empty"), `emptyContent` ("Empty
file content"), `signatureMismatch` ("Invalid PDF file signature"),
`mimeCheckFailed` ("Failed to validate file type"), `structureInvalid`
("Invalid PDF structure: ..."), `structureCheckFailed` ("Failed to
validate PDF structure"), `passwordRequired` ("Password is required for
this encrypted PDF"), `passwordIncorrect` ("Failed to decrypt PDF: ..." —
the inner "Invalid password" raise is re-wrapped by the surrounding
`except`), `pageLimitExceeded` ("PDF has too many pages").
`MaliciousFileError` sites: `maliciousContent` (carrying the matched
pattern) and `fileTooSmall` ("File too small to be a valid PDF"). -/
inductive VError where
  | filenameEmpty
  | notPdfExtension
  | pathTraversal
  | filenameTooLong
  | filenameBadChars
  | sizeExceeded (maxBytes : Nat)
  | emptyFile
  | emptyContent
  | signatureMismatch
  | mimeCheckFailed
  | structureInvalid (msg : String)
  | structureCheckFailed
  | passwordRequired
  | passwordIncorrect
  | pageLimitExceeded (pages : Nat)
  | maliciousContent (pat : List Nat)
  | fileTooSmall
  deriving DecidableEq

/-- Sequencing of a possibly-raising check (Python statement sequence:
a raised exception propagates, otherwise control continues). -/
def andThen (a : Except VError Unit) (b : Except VError α) : Except VError α :=
  match a with
  | .error e => .error e
  | .ok _ => b

/-! ### Executable models of the Python string primitives

The Lean core `String` functions `trim`, `toLower` and `splitOn` are
defined by well-founded recursion over byte positions and do not reduce
definitionally, so the Python string operations are modelled here as
structural recursions over the character list of the string. -/

/-- Python `str.lower()` of one character (ASCII model). -/
def charLower (c : Char) : Char :=
  if 65 ≤ c.toNat ∧ c.toNat ≤ 90 then Char.ofNat (c.toNat + 32) else c

/-- Python `str.lower()`. -/
def pyLower (s : String) : String :=
  String.mk (s.data.map charLower)

/-- Python `str.strip()`: drop leading and trailing whitespace. -/
def pyStrip (s : String) : String :=
  String.mk
    (((s.data.dropWhile Char.isWhitespace).reverse.dropWhile
        Char.isWhitespace).reverse)

/-! ### `validate_filename` -/

/-- Accumulator pass for `pyName`: walk the characters keeping the
current `/`-separated segment and the last completed nonempty segment. -/
def pyNameAux : List Char → List Char → List Char → List Char
  | [], cur, last => if cur.isEmpty then last else cur
  | c :: cs, cur, last =>
    if c = '/' then pyNameAux cs [] (if cur.isEmpty then last else cur)
    else pyNameAux cs (cur ++ [c]) last

/-- Python `PurePath(filename).name` on POSIX: the last nonempty
`/`-separated component. -/
def pyName (filename : String) : List Char :=
  pyNameAux filename.data [] []

/-- Python `PurePath(filename).suffix`: the extension of the name,
nonempty exactly when the last dot is neither the first nor the last
character of the name. -/
def pySuffix (filename : String) : String :=
  let name := pyName filename
  let ext := name.reverse.takeWhile (fun c => c ≠ '.')
  if name.contains '.' ∧ 0 < name.length - 1 - ext.length ∧ ext ≠ [] then
    String.mk ('.' :: ext.reverse)
  else ""

/-- The `suspicious_chars` list of `validate_filename`. -/
def suspiciousFilenameChars : List Char :=
  ['<', '>', ':', '"', '|', '?', '*', '\x00']

/-- Source `validate_filename`. -/
def validate_filename (filename : String) : Except VError Unit :=
  if filename = "" then .error .filenameEmpty
  else if pyLower (pySuffix filename) ≠ ".pdf" then .error .notPdfExtension
  else if containsSub ['.', '.'] filename.toList
          || filename.toList.contains '/'
          || filename.toList.contains '\\' then .error .pathTraversal
  else if filename.length > 255 then .error .filenameTooLong
  else if filename.toList.any (fun c => suspiciousFilenameChars.contains c) then
    .error .filenameBadChars
  else .ok ()

/-! ### `validate_file_signature` and `validate_mime_type` -/

/-- Source `validate_file_signature`. -/
def validate_file_signature (content : List Nat) : Except VError Unit :=
  if content.isEmpty then .error .emptyContent
  else if PDF_MAGIC_NUMBERS.any (fun m => leadsWith m content) then .ok ()
  else .error .signatureMismatch

/-- Source `validate_mime_type`.  The sniffed type is an oracle (`none` = the
`magic.from_buffer` call raised).  A sniffed non-PDF type only logs a
warning — the rejection is commented out in the source — so every
successful sniff returns ok. -/
def validate_mime_type (mimeSniff : Option String) : Except VError Unit :=
  match mimeSniff with
  | some _ => .ok ()
  | none => .error .mimeCheckFailed

/-! ### `detect_malicious_patterns` -/

/-- The first hard-block pattern whose lowercased bytes occur in the
lowercased buffer (the loop over `DANGEROUS_PDF_PATTERNS`). -/
def hardPatternHit (content : List Nat) : Option (List Nat) :=
  DANGEROUS_PDF_PATTERNS.find?
    (fun p => containsSub (bytesLower p) (bytesLower content))

/-- Whether some hard-block pattern occurs in the buffer. -/
def containsHardPattern (content : List Nat) : Bool :=
  (hardPatternHit content).isSome

/-- Whether some soft watch-list pattern occurs in the buffer
(the source only collects these into a log line). -/
def containsSuspiciousPattern (content : List Nat) : Bool :=
  SUSPICIOUS_PDF_PATTERNS.any
    (fun p => containsSub (bytesLower p) (bytesLower content))

/-- Source `detect_malicious_patterns`: hard-block scan, then (suspicious
patterns are only logged), then the minimum-size check. -/
def detect_malicious_patterns (content : List Nat) : Except VError Unit :=
  match hardPatternHit content with
  | some p => .error (.maliciousContent p)
  | none =>
    if content.length < 100 then .error .fileTooSmall
    else .ok ()

/-! ### `validate_pdf_structure` -/

/-- Oracle for the PyPDF2 `PdfReader` view of a successfully constructed
document: encryption flag, whether `decrypt(pw)` succeeds for a given
password, `len(pdf_reader.pages)`, and the trailer `/Size` entry when
readable. -/
structure ParsedPdf where
  is_encrypted : Bool
  decryptOk : String → Bool
  num_pages : Nat
  trailer_size : Option Nat

/-- Oracle for the outcome of `PyPDF2.PdfReader(...)`: a `PdfReadError`,
some other exception, or a parsed document. -/
inductive ParseOutcome where
  | readError (msg : String)
  | otherError (msg : String)
  | parsed (pdf : ParsedPdf)

/-- The password branch of `validate_pdf_structure`, entered when the
document is encrypted.  Python's `if password:` is truthiness, so a
`None` password and an empty-string password both take the
"Password is required" branch.  A wrong password raises
`FileValidationError("Invalid password...")` inside the `try`, which the
enclosing `except Exception` re-wraps into `"Failed to decrypt PDF: ..."`
(constructor `passwordIncorrect`). -/
def passwordGate (pdf : ParsedPdf) (password : Option String) : Except VError Unit :=
  match password with
  | some pw =>
    if pw = "" then .error .passwordRequired
    else if pdf.decryptOk pw then .ok ()
    else .error .passwordIncorrect
  | none => .error .passwordRequired

/-- Source `validate_pdf_structure`.  The trailer `/Size` zip-bomb check of the
source raises `MaliciousFileError` inside the same `try` whose
`except Exception` handler only logs a warning, so that check never
affects the returned value and accordingly has no branch here. -/
def validate_pdf_structure (parse : ParseOutcome) (content : List Nat)
    (password : Option String) : Except VError (Bool × Bool) :=
  match parse with
  | .readError msg => .error (.structureInvalid msg)
  | .otherError _ => .error .structureCheckFailed
  | .parsed pdf =>
    andThen (if pdf.is_encrypted then passwordGate pdf password else .ok ())
      (if pdf.num_pages > 1000 then .error (.pageLimitExceeded pdf.num_pages)
       else andThen (detect_malicious_patterns content)
         (.ok (true, pdf.is_encrypted)))

/-! ### `comprehensive_file_validation` -/

/-- The tail of the orchestrator: consume the structural result and emit
`(True, file_hash, is_password_protected)`. -/
def finish (sha256hex : List Nat → String) (content : List Nat)
    (r : Except VError (Bool × Bool)) : Except VError (Bool × String × Bool) :=
  match r with
  | .error e => .error e
  | .ok (_, pp) => .ok (true, sha256hex content, pp)

/-- Source `comprehensive_file_validation`, with the external collaborators
(MIME sniffer, PyPDF2 parse, SHA-256) passed as oracles. -/
def comprehensive_file_validation (content : List Nat) (filename : String)
    (max_size_bytes : Nat) (strict_validation : Bool)
    (password : Option String) (mimeSniff : Option String)
    (parse : ParseOutcome) (sha256hex : List Nat → String) :
    Except VError (Bool × String × Bool) :=
  andThen (validate_filename filename)
    (if content.length > max_size_bytes then .error (.sizeExceeded max_size_bytes)
     else if content.length = 0 then .error .emptyFile
     else andThen (validate_file_signature content)
       (andThen (if strict_validation then validate_mime_type mimeSniff else .ok ())
         (finish sha256hex content
           (validate_pdf_structure parse content password))))

/-! ### `document.py`: the `FinancialDocument` model -/

/-- Source `DocumentType` enum. -/
inductive DocumentType where
  | invoice | receipt | statement | contract | other
  deriving DecidableEq

/-- Source `DocumentStatus` enum. -/
inductive DocumentStatus where
  | uploaded | processing | completed | failed | archived
  deriving DecidableEq

/-- Source `FinancialDocument` (fields of the Beanie model, with the
`BaseDocument` timestamps; `datetime` is an abstract `Nat` instant,
`Dict[str, Any]` analysis payloads are opaque association lists, and the
float `confidence_score` is a rational). -/
structure FinancialDocument where
  filename : String
  original_filename : String
  document_type : DocumentType
  description : Option String
  user_id : String
  file_path : String
  file_size : Nat
  file_hash : String
  mime_type : String
  status : DocumentStatus
  processing_started_at : Option Nat
  processing_completed_at : Option Nat
  processing_error : Option String
  extracted_text : Option String
  analysis_results : Option (List (String × String))
  confidence_score : Option Rat
  is_password_protected : Bool
  password_required : Bool
  tags : List String
  is_archived : Bool
  created_at : Nat
  updated_at : Nat

/-- The list comprehension of the `tags` field validator:
`[tag.strip().lower() for tag in v if tag and tag.strip()]`. -/
def cleanTags (v : List String) : List String :=
  (v.filter (fun t => !(t = "") && !(pyStrip t = ""))).map
    (fun t => pyLower (pyStrip t))

/-- Source `validate_tags` (the `@field_validator('tags')`): `None` becomes `[]`,
otherwise empty tags are dropped and each tag is stripped and
lowercased. -/
def validate_tags (v : Option (List String)) : List String :=
  match v with
  | none => []
  | some tags => cleanTags tags

/-- Source `start_processing` (the in-memory effect of the method; `save()` is
persistence and out of scope). -/
def start_processing (now : Nat) (d : FinancialDocument) : FinancialDocument :=
  { d with status := .processing
         , processing_started_at := some now
         , processing_error := none }

/-- Source `complete_processing`.  The `if extracted_text:` guard is Python
truthiness, so `None` and the empty string both leave the stored text
unchanged. -/
def complete_processing (now : Nat) (d : FinancialDocument)
    (analysis_results : List (String × String)) (confidence_score : Rat)
    (extracted_text : Option String) : FinancialDocument :=
  { d with status := .completed
         , processing_completed_at := some now
         , analysis_results := some analysis_results
         , confidence_score := some confidence_score
         , extracted_text :=
             match extracted_text with
             | some t => if t = "" then d.extracted_text else some t
             | none => d.extracted_text
         , processing_error := none }

/-- Source `fail_processing`: unconditionally records the failure. -/
def fail_processing (now : Nat) (d : FinancialDocument)
    (error_message : String) : FinancialDocument :=
  { d with status := .failed
         , processing_completed_at := some now
         , processing_error := some error_message }

/-- Source `archive`. -/
def archive (d : FinancialDocument) : FinancialDocument :=
  { d with is_archived := true }

/-- Source `unarchive`. -/
def unarchive (d : FinancialDocument) : FinancialDocument :=
  { d with is_archived := false }

/-- Source `add_tags`: clean the new tags, union them with the current ones
through a Python `set`, and store the result.  A Python `set` leaves the
element order unspecified; `List.dedup` fixes one duplicate-free
representative of that union. -/
def add_tags (d : FinancialDocument) (new_tags : List String) :
    FinancialDocument :=
  let cleaned := cleanTags new_tags
  { d with tags := (d.tags ++ cleaned).dedup }

/-- Source `remove_tags`: drop every current tag that equals the
stripped-lowercased form of some tag in the removal list. -/
def remove_tags (d : FinancialDocument) (tags_to_remove : List String) :
    FinancialDocument :=
  let removeSet := tags_to_remove.map (fun t => pyLower (pyStrip t))
  { d with tags := d.tags.filter (fun t => !removeSet.contains t) }

/-! ### Dedup queries

A MongoDB collection is a `List FinancialDocument` and `find_one` is
`List.find?`. -/

/-- Source `FinancialDocument.find_by_hash`: looks up by `file_hash` alone — the
classmethod takes no owner argument. -/
def find_by_hash (db : List FinancialDocument) (file_hash : String) :
    Option FinancialDocument :=
  db.find? (fun d => d.file_hash == file_hash)

/-- The duplicate check actually performed by the upload route
(`documents.py`): `find_one(FinancialDocument.file_hash == file_hash,
FinancialDocument.user_id == str(current_user.id))`. -/
def upload_dedup_check (db : List FinancialDocument) (file_hash : String)
    (user_id : String) : Option FinancialDocument :=
  db.find? (fun d => d.file_hash == file_hash && d.user_id == user_id)

/-- Modelled from the spec: the §4.2 lifecycle state machine
`uploaded → processing → (completed | failed)`, as the set of its
edges.  Used to compare the code's unguarded lifecycle operations with
the machine the spec describes. -/
def specEdge : DocumentStatus → DocumentStatus → Bool
  | .uploaded, .processing => true
  | .processing, .completed => true
  | .processing, .failed => true
  | _, _ => false

/-! ### Concrete sample values used by witnesses and counterexamples -/

/-- A stored document with the given owner, hash and status; the other
fields carry arbitrary well-formed values. -/
def sampleDoc (uid h : String) (st : DocumentStatus) : FinancialDocument :=
  { filename := "report.pdf"
  , original_filename := "report.pdf"
  , document_type := .invoice
  , description := none
  , user_id := uid
  , file_path := "uploads/report.pdf"
  , file_size := 1024
  , file_hash := h
  , mime_type := "application/pdf"
  , status := st
  , processing_started_at := none
  , processing_completed_at := none
  , processing_error := none
  , extracted_text := none
  , analysis_results := some []
  , confidence_score := none
  , is_password_protected := false
  , password_required := false
  , tags := []
  , is_archived := false
  , created_at := 0
  , updated_at := 0 }

/-- A freshly uploaded document owned by `bob`. -/
def bobDoc : FinancialDocument := sampleDoc "bob" "deadbeef" .uploaded

/-- A document currently in the `processing` state. -/
def processingDoc : FinancialDocument :=
  { sampleDoc "bob" "deadbeef" .processing with processing_started_at := some 1 }

/-- A parsed, unencrypted, one-page PDF oracle. -/
def cleanParse : ParsedPdf :=
  { is_encrypted := false, decryptOk := fun _ => false
  , num_pages := 1, trailer_size := some 42 }

/-- A parsed encrypted PDF oracle whose password is `secret`. -/
def encParse : ParsedPdf :=
  { is_encrypted := true, decryptOk := fun pw => pw == "secret"
  , num_pages := 1, trailer_size := none }

/-- A constant stand-in for the SHA-256 oracle in concrete runs. -/
def constHash : List Nat → String := fun _ => "hash"

/-- A buffer that is not a PDF at all. -/
def helloBytes : List Nat := ascii "hello"

/-- A clean buffer: PDF magic, over 100 bytes, no scan patterns. -/
def cleanBigPdf : List Nat := ascii "%PDF-1.4" ++ List.replicate 120 32

/-- A buffer over 100 bytes containing only soft watch-list patterns. -/
def softPdf : List Nat :=
  ascii "%PDF-1.4 /JavaScript /OpenAction" ++ List.replicate 100 32

/-- A sub-100-byte buffer with PDF magic containing the hard-block
pattern `/Launch`. -/
def launchTiny : List Nat := ascii "%PDF-1.4 /Launch"

/-- A sub-100-byte buffer with PDF magic and no scan patterns. -/
def tinyClean : List Nat := ascii "%PDF-1.4 tiny"


/-! ### Helper lemmas about the validation pipeline -/

@[simp] theorem andThen_ok (b : Except VError α) : andThen (.ok ()) b = b := rfl

@[simp] theorem andThen_error (e : VError) (b : Except VError α) :
    andThen (.error e) b = .error e := rfl

@[simp] theorem finish_error (sha : List Nat → String) (content : List Nat)
    (e : VError) : finish sha content (.error e) = .error e := rfl

@[simp] theorem finish_ok (sha : List Nat → String) (content : List Nat)
    (b pp : Bool) : finish sha content (.ok (b, pp))
      = .ok (true, sha content, pp) := rfl

theorem sig_ok_ne_nil (content : List Nat)
    (h : validate_file_signature content = .ok ()) : content ≠ [] := by
  intro hnil
  subst hnil
  exact Except.noConfusion h

/-- With a passing filename and an in-bounds, nonempty buffer, the
orchestrator reaches the signature check. -/
theorem comp_front (content : List Nat) (filename : String) (m : Nat)
    (strict : Bool) (password mime : Option String) (parse : ParseOutcome)
    (sha : List Nat → String)
    (hF : validate_filename filename = .ok ())
    (hSize : content.length ≤ m) (hne : content ≠ []) :
    comprehensive_file_validation content filename m strict password mime parse sha =
      andThen (validate_file_signature content)
        (andThen (if strict then validate_mime_type mime else .ok ())
          (finish sha content (validate_pdf_structure parse content password))) := by
  unfold comprehensive_file_validation
  rw [hF, andThen_ok, if_neg (by omega), if_neg (by simpa using hne)]

/-- With passing filename, size, signature and MIME checks, the
orchestrator's verdict is the structural validator's verdict. -/
theorem comp_structure (content : List Nat) (filename : String) (m : Nat)
    (strict : Bool) (password mime : Option String) (parse : ParseOutcome)
    (sha : List Nat → String)
    (hF : validate_filename filename = .ok ())
    (hSize : content.length ≤ m)
    (hSig : validate_file_signature content = .ok ())
    (hMime : strict = true → validate_mime_type mime = .ok ()) :
    comprehensive_file_validation content filename m strict password mime parse sha =
      finish sha content (validate_pdf_structure parse content password) := by
  rw [comp_front content filename m strict password mime parse sha hF hSize
        (sig_ok_ne_nil content hSig), hSig, andThen_ok]
  cases strict with
  | false => simp
  | true => rw [if_pos rfl, hMime rfl, andThen_ok]

/-- A parsed document with a passing password gate and an in-bounds page
count hands the verdict to the malicious-pattern scan. -/
theorem structure_clean (pdf : ParsedPdf) (content : List Nat)
    (password : Option String)
    (hGate : (if pdf.is_encrypted then passwordGate pdf password else .ok ()) = .ok ())
    (hPages : pdf.num_pages ≤ 1000) :
    validate_pdf_structure (.parsed pdf) content password =
      andThen (detect_malicious_patterns content) (.ok (true, pdf.is_encrypted)) := by
  simp only [validate_pdf_structure]
  rw [hGate, andThen_ok, if_neg (by omega)]

theorem detect_of_hard (content p : List Nat)
    (h : hardPatternHit content = some p) :
    detect_malicious_patterns content = .error (.maliciousContent p) := by
  unfold detect_malicious_patterns
  rw [h]

theorem detect_of_clean (content : List Nat)
    (h : hardPatternHit content = none) (hlen : 100 ≤ content.length) :
    detect_malicious_patterns content = .ok () := by
  unfold detect_malicious_patterns
  rw [h, if_neg (by omega)]

theorem detect_of_small (content : List Nat)
    (h : hardPatternHit content = none) (hlen : content.length < 100) :
    detect_malicious_patterns content = .error .fileTooSmall := by
  unfold detect_malicious_patterns
  rw [h, if_pos hlen]

theorem detect_ok_inv (content : List Nat)
    (h : detect_malicious_patterns content = .ok ()) :
    hardPatternHit content = none ∧ 100 ≤ content.length := by
  unfold detect_malicious_patterns at h
  cases hH : hardPatternHit content with
  | some p => rw [hH] at h; exact Except.noConfusion h
  | none =>
    rw [hH] at h
    refine ⟨rfl, ?_⟩
    by_cases hl : content.length < 100
    · rw [if_pos hl] at h; exact Except.noConfusion h
    · omega

theorem detect_error_shape (content : List Nat) (e : VError)
    (h : detect_malicious_patterns content = .error e) :
    (∃ p, hardPatternHit content = some p ∧ e = .maliciousContent p) ∨
      e = .fileTooSmall := by
  unfold detect_malicious_patterns at h
  cases hH : hardPatternHit content with
  | some p =>
    rw [hH] at h
    injection h with h
    exact Or.inl ⟨p, rfl, h.symm⟩
  | none =>
    rw [hH] at h
    split_ifs at h with hl
    injection h with h
    exact Or.inr h.symm

theorem passwordGate_error_shape (pdf : ParsedPdf) (password : Option String)
    (e : VError) (h : passwordGate pdf password = .error e) :
    e = .passwordRequired ∨ e = .passwordIncorrect := by
  cases password with
  | none => injection h with h'; exact Or.inl h'.symm
  | some pw =>
    simp only [passwordGate] at h
    split_ifs at h <;>
      first
        | exact Except.noConfusion h
        | (injection h with h; subst h; simp)

theorem validate_filename_error_shape (filename : String) (e : VError)
    (h : validate_filename filename = .error e) :
    e = .filenameEmpty ∨ e = .notPdfExtension ∨ e = .pathTraversal ∨
      e = .filenameTooLong ∨ e = .filenameBadChars := by
  unfold validate_filename at h
  split_ifs at h <;>
    first
      | exact Except.noConfusion h
      | (injection h with h; subst h; simp)

theorem validate_file_signature_error_shape (content : List Nat) (e : VError)
    (h : validate_file_signature content = .error e) :
    e = .emptyContent ∨ e = .signatureMismatch := by
  unfold validate_file_signature at h
  split_ifs at h <;>
    first
      | exact Except.noConfusion h
      | (injection h with h; subst h; simp)

theorem validate_mime_type_error_shape (mime : Option String) (e : VError)
    (h : validate_mime_type mime = .error e) : e = .mimeCheckFailed := by
  unfold validate_mime_type at h
  cases mime with
  | some m => exact Except.noConfusion h
  | none => injection h with h; exact h.symm

/-- A structural verdict of ok means the malicious-pattern scan passed. -/
theorem structure_ok_detect (parse : ParseOutcome) (content : List Nat)
    (password : Option String) (b pp : Bool)
    (h : validate_pdf_structure parse content password = .ok (b, pp)) :
    detect_malicious_patterns content = .ok () := by
  cases parse with
  | readError msg => exact Except.noConfusion h
  | otherError msg => exact Except.noConfusion h
  | parsed pdf =>
    simp only [validate_pdf_structure] at h
    cases hG : (if pdf.is_encrypted then passwordGate pdf password else .ok ()) with
    | error e => rw [hG, andThen_error] at h; exact Except.noConfusion h
    | ok u =>
      cases u
      rw [hG, andThen_ok] at h
      by_cases hp : pdf.num_pages > 1000
      · rw [if_pos hp] at h; exact Except.noConfusion h
      · rw [if_neg hp] at h
        cases hD : detect_malicious_patterns content with
        | error e => rw [hD, andThen_error] at h; exact Except.noConfusion h
        | ok u2 => cases u2; rfl

/-- An accepted orchestrator verdict means the malicious-pattern scan
passed on the raw buffer. -/
theorem comp_ok_detect (content : List Nat) (filename : String) (m : Nat)
    (strict : Bool) (password mime : Option String) (parse : ParseOutcome)
    (sha : List Nat → String) (v : Bool × String × Bool)
    (h : comprehensive_file_validation content filename m strict password mime parse sha
          = .ok v) :
    detect_malicious_patterns content = .ok () := by
  unfold comprehensive_file_validation at h
  cases hF : validate_filename filename with
  | error e => rw [hF, andThen_error] at h; exact Except.noConfusion h
  | ok u =>
    cases u
    rw [hF, andThen_ok] at h
    by_cases h1 : content.length > m
    · rw [if_pos h1] at h; exact Except.noConfusion h
    · rw [if_neg h1] at h
      by_cases h2 : content.length = 0
      · rw [if_pos h2] at h; exact Except.noConfusion h
      · rw [if_neg h2] at h
        cases hS : validate_file_signature content with
        | error e => rw [hS, andThen_error] at h; exact Except.noConfusion h
        | ok u2 =>
          cases u2
          rw [hS, andThen_ok] at h
          cases hM : (if strict then validate_mime_type mime else .ok ()) with
          | error e => rw [hM, andThen_error] at h; exact Except.noConfusion h
          | ok u3 =>
            cases u3
            rw [hM, andThen_ok] at h
            cases hV : validate_pdf_structure parse content password with
            | error e => rw [hV, finish_error] at h; exact Except.noConfusion h
            | ok pr =>
              obtain ⟨b, pp⟩ := pr
              exact structure_ok_detect parse content password b pp hV

/-- A structural rejection whose reason is a malicious-content pattern can
only come from the hard-block scan, with exactly the matched pattern. -/
theorem structure_malicious_inv (parse : ParseOutcome) (content : List Nat)
    (password : Option String) (p : List Nat)
    (h : validate_pdf_structure parse content password
          = .error (.maliciousContent p)) :
    hardPatternHit content = some p := by
  cases parse with
  | readError msg => injection h with h; exact VError.noConfusion h
  | otherError msg => injection h with h; exact VError.noConfusion h
  | parsed pdf =>
    simp only [validate_pdf_structure] at h
    cases hG : (if pdf.is_encrypted then passwordGate pdf password else .ok ()) with
    | error e =>
      rw [hG, andThen_error] at h
      injection h with h
      subst h
      cases henc : pdf.is_encrypted with
      | false => rw [henc] at hG; simp at hG
      | true =>
        rw [henc, if_pos rfl] at hG
        rcases passwordGate_error_shape pdf password _ hG with h' | h' <;>
          exact VError.noConfusion h'
    | ok u =>
      cases u
      rw [hG, andThen_ok] at h
      by_cases hp : pdf.num_pages > 1000
      · rw [if_pos hp] at h
        injection h with h
        exact VError.noConfusion h
      · rw [if_neg hp] at h
        cases hD : detect_malicious_patterns content with
        | error e =>
          rw [hD, andThen_error] at h
          injection h with h
          subst h
          rcases detect_error_shape content _ hD with ⟨q, hq, he⟩ | he
          · injection he with he; rw [he]; exact hq
          · exact VError.noConfusion he
        | ok u2 => cases u2; rw [hD, andThen_ok] at h; exact Except.noConfusion h

/-- An orchestrator rejection whose reason is a malicious-content pattern
can only come from the hard-block scan, with exactly the matched
pattern. -/
theorem comp_malicious_inv (content : List Nat) (filename : String) (m : Nat)
    (strict : Bool) (password mime : Option String) (parse : ParseOutcome)
    (sha : List Nat → String) (p : List Nat)
    (h : comprehensive_file_validation content filename m strict password mime parse sha
          = .error (.maliciousContent p)) :
    hardPatternHit content = some p := by
  unfold comprehensive_file_validation at h
  cases hF : validate_filename filename with
  | error e =>
    rw [hF, andThen_error] at h
    injection h with h
    subst h
    rcases validate_filename_error_shape filename _ hF with h' | h' | h' | h' | h' <;>
      exact VError.noConfusion h'
  | ok u =>
    cases u
    rw [hF, andThen_ok] at h
    by_cases h1 : content.length > m
    · rw [if_pos h1] at h; injection h with h; exact VError.noConfusion h
    · rw [if_neg h1] at h
      by_cases h2 : content.length = 0
      · rw [if_pos h2] at h; injection h with h; exact VError.noConfusion h
      · rw [if_neg h2] at h
        cases hS : validate_file_signature content with
        | error e =>
          rw [hS, andThen_error] at h
          injection h with h
          subst h
          rcases validate_file_signature_error_shape content _ hS with h' | h' <;>
            exact VError.noConfusion h'
        | ok u2 =>
          cases u2
          rw [hS, andThen_ok] at h
          cases hM : (if strict then validate_mime_type mime else .ok ()) with
          | error e =>
            rw [hM, andThen_error] at h
            injection h with h
            subst h
            cases hst : strict with
            | false => rw [hst] at hM; simp at hM
            | true =>
              rw [hst, if_pos rfl] at hM
              exact VError.noConfusion (validate_mime_type_error_shape mime _ hM)
          | ok u3 =>
            cases u3
            rw [hM, andThen_ok] at h
            cases hV : validate_pdf_structure parse content password with
            | error e =>
              rw [hV, finish_error] at h
              injection h with h
              subst h
              exact structure_malicious_inv parse content password p hV
            | ok pr =>
              obtain ⟨b, pp⟩ := pr
              rw [hV, finish_ok] at h
              exact Except.noConfusion h

/-! ### Claim C1 -/

/-- C1, counterexample: the claim that the dedup lookup `find_by_hash`
is scoped to one owner is false — the classmethod takes no owner argument
and returns whatever document matches the hash, so its result cannot be
guaranteed to belong to any particular querying owner (here `bobDoc`,
owned by `bob`, is returned although the query is made on behalf of
`alice`). -/
theorem c1_find_by_hash_not_owner_scoped :
    ¬ (∀ (queryOwner : String) (db : List FinancialDocument) (h : String)
        (d : FinancialDocument),
        find_by_hash db h = some d → d.user_id = queryOwner) := by
  intro hclaim
  exact absurd (hclaim "alice" [bobDoc] "deadbeef" bobDoc rfl) (by decide)

/-- C1, amended: the classmethod `find_by_hash` takes only a content hash
and is not owner-scoped; the dedup check actually used before accepting a
new upload is the inline owner-scoped query of the upload route, and that
query returns a document only when both its content hash and its owner
match, so it never returns another owner's document. -/
theorem c1_upload_dedup_owner_scoped (owner hash : String)
    (db : List FinancialDocument) (d : FinancialDocument)
    (h : upload_dedup_check db hash owner = some d) :
    d.file_hash = hash ∧ d.user_id = owner := by
  have hp := List.find?_some h
  simpa using hp

/-- C1, witness for the amended theorem at a concrete database. -/
theorem c1_witness : bobDoc.file_hash = "deadbeef" ∧ bobDoc.user_id = "bob" :=
  c1_upload_dedup_owner_scoped "bob" "deadbeef" [bobDoc] bobDoc rfl

/-! ### Claim C2 -/

/-- C2: a buffer containing a hard-block pattern is never accepted, and
when the filename, size, signature and MIME checks pass and the buffer
parses as an unencrypted document within the page ceiling, the verdict is
the malicious-content rejection carrying a hard-block pattern. -/
theorem c2_hard_block_always_rejected
    (content : List Nat) (filename : String) (m : Nat) (strict : Bool)
    (password mime : Option String) (parse : ParseOutcome)
    (sha : List Nat → String)
    (hHard : containsHardPattern content = true) :
    (∀ v, comprehensive_file_validation content filename m strict password mime parse sha
      ≠ .ok v) ∧
    (∀ pdf : ParsedPdf, validate_filename filename = .ok () → content.length ≤ m →
      validate_file_signature content = .ok () →
      (strict = true → validate_mime_type mime = .ok ()) →
      parse = .parsed pdf → pdf.is_encrypted = false → pdf.num_pages ≤ 1000 →
      ∃ p, p ∈ DANGEROUS_PDF_PATTERNS ∧
        comprehensive_file_validation content filename m strict password mime parse sha
          = .error (.maliciousContent p)) := by
  obtain ⟨p, hp⟩ : ∃ p, hardPatternHit content = some p :=
    Option.isSome_iff_exists.mp hHard
  constructor
  · intro v hok
    have hD := comp_ok_detect content filename m strict password mime parse sha v hok
    have hnone := (detect_ok_inv content hD).1
    rw [hp] at hnone
    exact Option.noConfusion hnone
  · intro pdf hF hSize hSig hMime hparse henc hpages
    subst hparse
    refine ⟨p, List.mem_of_find?_eq_some hp, ?_⟩
    rw [comp_structure content filename m strict password mime (.parsed pdf) sha
          hF hSize hSig hMime,
        structure_clean pdf content password (by rw [henc]; simp) hpages,
        detect_of_hard content p hp, andThen_error, finish_error]

/-- C2, witness: a magic-prefixed buffer containing `/Launch` is rejected
as malicious content and never accepted. -/
theorem c2_witness :
    (comprehensive_file_validation launchTiny "a.pdf" 1000000 false none none
        (.parsed cleanParse) constHash ≠ .ok (true, "hash", false)) ∧
    (∃ p, p ∈ DANGEROUS_PDF_PATTERNS ∧
      comprehensive_file_validation launchTiny "a.pdf" 1000000 false none none
        (.parsed cleanParse) constHash = .error (.maliciousContent p)) := by
  have hc := c2_hard_block_always_rejected launchTiny "a.pdf" 1000000 false none
      none (.parsed cleanParse) constHash rfl
  exact ⟨hc.1 (true, "hash", false),
         hc.2 cleanParse rfl (by decide) rfl (fun h => Bool.noConfusion h)
           rfl rfl (by decide)⟩

/-! ### Claim C3 -/

/-- C3, counterexample: the claim promises `SignatureMismatch` for every
non-empty, within-size, non-magic buffer "regardless of the declared
filename's extension", but the filename check runs first, so a non-magic
buffer declared as `a.txt` is rejected with the extension error instead
of `SignatureMismatch`. -/
theorem c3_counterexample :
    helloBytes ≠ [] ∧ helloBytes.length ≤ 1000000 ∧
    (PDF_MAGIC_NUMBERS.any (fun mg => leadsWith mg helloBytes)) = false ∧
    comprehensive_file_validation helloBytes "a.txt" 1000000 false none
        (some "text/plain") (.readError "nope") constHash
      = .error .notPdfExtension ∧
    VError.notPdfExtension ≠ VError.signatureMismatch := by
  exact ⟨by decide, by decide, by decide, rfl, by decide⟩

/-- C3, amended: provided the filename passes the filename check, every
non-empty, within-size buffer that does not start with the PDF magic
prefix is rejected with `SignatureMismatch`, regardless of the sniffed
MIME type, the strict flag, the supplied password and the parse outcome;
a filename failing the filename check is rejected earlier with a
filename error. -/
theorem c3_signature_mismatch (content : List Nat) (filename : String)
    (m : Nat) (strict : Bool) (password mime : Option String)
    (parse : ParseOutcome) (sha : List Nat → String)
    (hF : validate_filename filename = .ok ())
    (hne : content ≠ []) (hSize : content.length ≤ m)
    (hMagic : (PDF_MAGIC_NUMBERS.any (fun mg => leadsWith mg content)) = false) :
    comprehensive_file_validation content filename m strict password mime parse sha
      = .error .signatureMismatch := by
  rw [comp_front content filename m strict password mime parse sha hF hSize hne]
  have hSig : validate_file_signature content = .error .signatureMismatch := by
    unfold validate_file_signature
    rw [if_neg (by simpa using hne), if_neg (by simp [hMagic])]
  rw [hSig, andThen_error]

/-- C3, witness: a non-magic buffer with a valid `.pdf` filename is
rejected as a signature mismatch even under strict mode with a sniffed
non-PDF MIME type. -/
theorem c3_witness :
    comprehensive_file_validation helloBytes "a.pdf" 1000000 true (some "pw")
        (some "text/plain") (.readError "nope") constHash
      = .error .signatureMismatch :=
  c3_signature_mismatch helloBytes "a.pdf" 1000000 true (some "pw")
    (some "text/plain") (.readError "nope") constHash rfl (by decide)
    (by decide) (by decide)

/-! ### Claim C4 -/

/-- C4: a buffer longer than `max_size_bytes` (with a passing filename) is
rejected with the size error, and the verdict is independent of the MIME
sniff and of the structural parse outcome — the parser is never
consulted. -/
theorem c4_size_short_circuit (content : List Nat) (filename : String)
    (m : Nat) (strict : Bool) (password mime mime' : Option String)
    (parse parse' : ParseOutcome) (sha : List Nat → String)
    (hF : validate_filename filename = .ok ())
    (hBig : m < content.length) :
    comprehensive_file_validation content filename m strict password mime parse sha
      = .error (.sizeExceeded m) ∧
    comprehensive_file_validation content filename m strict password mime parse sha
      = comprehensive_file_validation content filename m strict password mime' parse' sha := by
  have key : ∀ (mi : Option String) (pa : ParseOutcome),
      comprehensive_file_validation content filename m strict password mi pa sha
        = .error (.sizeExceeded m) := by
    intro mi pa
    unfold comprehensive_file_validation
    rw [hF, andThen_ok, if_pos (by omega)]
  exact ⟨key mime parse, by rw [key mime parse, key mime' parse']⟩

/-- C4, witness: a 5-byte buffer against a 3-byte limit is rejected for
size with the verdict unchanged when the parse oracle is swapped for a
failing one. -/
theorem c4_witness :
    comprehensive_file_validation helloBytes "a.pdf" 3 true none
        (some "application/pdf") (.parsed cleanParse) constHash
      = .error (.sizeExceeded 3) ∧
    comprehensive_file_validation helloBytes "a.pdf" 3 true none
        (some "application/pdf") (.parsed cleanParse) constHash
      = comprehensive_file_validation helloBytes "a.pdf" 3 true none none
          (.readError "boom") constHash :=
  c4_size_short_circuit helloBytes "a.pdf" 3 true none (some "application/pdf")
    none (.parsed cleanParse) (.readError "boom") constHash rfl (by decide)

/-! ### Claim C5 -/

/-- C5, counterexample: the claim promises `PasswordIncorrect` for every
wrong supplied password, but `if password:` is Python truthiness, so a
supplied empty-string password — wrong for this document, whose password
is `secret` — is treated as absent and yields `PasswordRequired`. -/
theorem c5_counterexample :
    encParse.is_encrypted = true ∧ encParse.decryptOk "" = false ∧
    comprehensive_file_validation cleanBigPdf "a.pdf" 1000000 false (some "")
        none (.parsed encParse) constHash = .error .passwordRequired ∧
    VError.passwordRequired ≠ VError.passwordIncorrect := by
  exact ⟨rfl, rfl, rfl, by decide⟩

/-- C5, amended: for an encrypted document passing the earlier checks —
no password yields `PasswordRequired`; a wrong non-empty password yields
`PasswordIncorrect`, distinguishable from `PasswordRequired` (an empty
supplied password is treated as absent); a correct non-empty password
lets validation continue and succeed when the remaining checks pass. -/
theorem c5_password_handling (content : List Nat) (filename : String)
    (m : Nat) (strict : Bool) (mime : Option String) (pdf : ParsedPdf)
    (sha : List Nat → String)
    (hF : validate_filename filename = .ok ()) (hSize : content.length ≤ m)
    (hSig : validate_file_signature content = .ok ())
    (hMime : strict = true → validate_mime_type mime = .ok ())
    (henc : pdf.is_encrypted = true) :
    (comprehensive_file_validation content filename m strict none mime
        (.parsed pdf) sha = .error .passwordRequired) ∧
    (∀ pw, pw ≠ "" → pdf.decryptOk pw = false →
      comprehensive_file_validation content filename m strict (some pw) mime
        (.parsed pdf) sha = .error .passwordIncorrect) ∧
    (∀ pw, pw ≠ "" → pdf.decryptOk pw = true → pdf.num_pages ≤ 1000 →
      hardPatternHit content = none → 100 ≤ content.length →
      comprehensive_file_validation content filename m strict (some pw) mime
        (.parsed pdf) sha = .ok (true, sha content, true)) ∧
    VError.passwordRequired ≠ VError.passwordIncorrect := by
  refine ⟨?_, ?_, ?_, by decide⟩
  · rw [comp_structure content filename m strict none mime (.parsed pdf) sha
          hF hSize hSig hMime]
    simp only [validate_pdf_structure]
    rw [if_pos henc]
    simp only [passwordGate]
    rw [andThen_error, finish_error]
  · intro pw hpw hdec
    rw [comp_structure content filename m strict (some pw) mime (.parsed pdf) sha
          hF hSize hSig hMime]
    simp only [validate_pdf_structure]
    rw [if_pos henc]
    simp only [passwordGate]
    rw [if_neg hpw, if_neg (by simp [hdec]), andThen_error, finish_error]
  · intro pw hpw hdec hpages hclean hlen
    rw [comp_structure content filename m strict (some pw) mime (.parsed pdf) sha
          hF hSize hSig hMime,
        structure_clean pdf content (some pw)
          (by rw [if_pos henc]; simp only [passwordGate];
              rw [if_neg hpw, if_pos hdec]) hpages,
        detect_of_clean content hclean hlen, andThen_ok, finish_ok, henc]

/-- C5, witness: the three password outcomes at a concrete encrypted
document whose password is `secret`. -/
theorem c5_witness :
    comprehensive_file_validation cleanBigPdf "a.pdf" 1000000 false none none
        (.parsed encParse) constHash = .error .passwordRequired ∧
    comprehensive_file_validation cleanBigPdf "a.pdf" 1000000 false
        (some "wrong") none (.parsed encParse) constHash
      = .error .passwordIncorrect ∧
    comprehensive_file_validation cleanBigPdf "a.pdf" 1000000 false
        (some "secret") none (.parsed encParse) constHash
      = .ok (true, "hash", true) := by
  have hc := c5_password_handling cleanBigPdf "a.pdf" 1000000 false none
      encParse constHash rfl (by decide) rfl (fun h => Bool.noConfusion h) rfl
  exact ⟨hc.1, hc.2.1 "wrong" (by decide) rfl,
         hc.2.2.1 "secret" (by decide) rfl (by decide) rfl (by decide)⟩

/-! ### Claim C6 -/

/-- C6: a buffer passing all other checks that contains soft watch-list
patterns but no hard-block pattern is accepted, and a malicious-content
rejection reason always carries a hard-block pattern and never a soft
watch-list pattern. -/
theorem c6_soft_patterns_allowed :
    (∀ (content : List Nat) (filename : String) (m : Nat) (strict : Bool)
        (password mime : Option String) (pdf : ParsedPdf)
        (sha : List Nat → String),
      validate_filename filename = .ok () → content.length ≤ m →
      validate_file_signature content = .ok () →
      (strict = true → validate_mime_type mime = .ok ()) →
      (if pdf.is_encrypted then passwordGate pdf password else Except.ok ()) = .ok () →
      pdf.num_pages ≤ 1000 →
      containsSuspiciousPattern content = true →
      containsHardPattern content = false →
      100 ≤ content.length →
      comprehensive_file_validation content filename m strict password mime
        (.parsed pdf) sha = .ok (true, sha content, pdf.is_encrypted)) ∧
    (∀ (content : List Nat) (filename : String) (m : Nat) (strict : Bool)
        (password mime : Option String) (parse : ParseOutcome)
        (sha : List Nat → String) (p : List Nat),
      comprehensive_file_validation content filename m strict password mime parse sha
        = .error (.maliciousContent p) →
      p ∈ DANGEROUS_PDF_PATTERNS ∧ p ∉ SUSPICIOUS_PDF_PATTERNS) := by
  constructor
  · intro content filename m strict password mime pdf sha hF hSize hSig hMime
      hGate hpages hsusp hhard hlen
    have hnone : hardPatternHit content = none := by
      cases hH : hardPatternHit content with
      | none => rfl
      | some p =>
        unfold containsHardPattern at hhard
        rw [hH] at hhard
        exact Bool.noConfusion hhard
    rw [comp_structure content filename m strict password mime (.parsed pdf) sha
          hF hSize hSig hMime,
        structure_clean pdf content password hGate hpages,
        detect_of_clean content hnone hlen, andThen_ok, finish_ok]
  · intro content filename m strict password mime parse sha p h
    have hp := comp_malicious_inv content filename m strict password mime parse sha p h
    have hmem : p ∈ DANGEROUS_PDF_PATTERNS := List.mem_of_find?_eq_some hp
    have hdisj : ∀ q ∈ DANGEROUS_PDF_PATTERNS, q ∉ SUSPICIOUS_PDF_PATTERNS := by
      decide
    exact ⟨hmem, hdisj p hmem⟩

/-- C6, witness: a buffer containing `/JavaScript` and `/OpenAction` (and
no hard-block pattern) is accepted; the pattern carried by a concrete
malicious rejection is a hard-block pattern and not a watch-list one. -/
theorem c6_witness :
    comprehensive_file_validation softPdf "a.pdf" 1000000 false none none
        (.parsed cleanParse) constHash = .ok (true, "hash", false) ∧
    (ascii "/Launch" ∈ DANGEROUS_PDF_PATTERNS ∧
      ascii "/Launch" ∉ SUSPICIOUS_PDF_PATTERNS) := by
  constructor
  · exact c6_soft_patterns_allowed.1 softPdf "a.pdf" 1000000 false none none
      cleanParse constHash rfl (by decide) rfl (fun h => Bool.noConfusion h)
      rfl (by decide) rfl rfl (by decide)
  · exact c6_soft_patterns_allowed.2 launchTiny "a.pdf" 1000000 false none none
      (.parsed cleanParse) constHash (ascii "/Launch") rfl

/-! ### Claim C7 -/

/-- C7, counterexample: the claim that every lifecycle operation moves the
status only along an edge of the machine is false — `complete_processing`
does not check the current status, so it moves a freshly uploaded
document straight to `completed`, an edge the machine does not have. -/
theorem c7_counterexample :
    bobDoc.status = DocumentStatus.uploaded ∧
    (complete_processing 5 bobDoc [] (1/2) none).status
      = DocumentStatus.completed ∧
    specEdge DocumentStatus.uploaded DocumentStatus.completed = false := by
  exact ⟨rfl, rfl, rfl⟩

/-- C7, amended: each lifecycle operation unconditionally sets its fixed
target status (`start_processing` to `processing`, `complete_processing`
to `completed`, `fail_processing` to `failed`) without guarding the
current status; when invoked from the machine's legal source states these
are exactly the machine's edges, but the operations themselves do not
prevent skipping `processing`. -/
theorem c7_lifecycle_targets (now : Nat) (d : FinancialDocument)
    (results : List (String × String)) (score : Rat) (text : Option String)
    (msg : String) :
    ((start_processing now d).status = .processing ∧
     (complete_processing now d results score text).status = .completed ∧
     (fail_processing now d msg).status = .failed) ∧
    (d.status = .uploaded →
      specEdge d.status (start_processing now d).status = true) ∧
    (d.status = .processing →
      specEdge d.status (complete_processing now d results score text).status = true) ∧
    (d.status = .processing →
      specEdge d.status (fail_processing now d msg).status = true) := by
  refine ⟨⟨rfl, rfl, rfl⟩, ?_, ?_, ?_⟩ <;> (intro h; rw [h]; rfl)

/-- C7, witness: the amended transitions at concrete documents in the
`uploaded` and `processing` states. -/
theorem c7_witness :
    (start_processing 1 bobDoc).status = DocumentStatus.processing ∧
    specEdge bobDoc.status (start_processing 1 bobDoc).status = true ∧
    specEdge processingDoc.status
        (fail_processing 2 processingDoc "timeout").status = true := by
  exact ⟨(c7_lifecycle_targets 1 bobDoc [] 0 none "e").1.1,
         (c7_lifecycle_targets 1 bobDoc [] 0 none "e").2.1 rfl,
         (c7_lifecycle_targets 2 processingDoc [] 0 none "timeout").2.2.2 rfl⟩

/-! ### Claim C8 -/

/-- C8, counterexample: the claim that a non-empty error message is
required is false — `fail_processing` performs no check on the message
and records the failed transition even for the empty string. -/
theorem c8_counterexample :
    (fail_processing 7 processingDoc "").status = DocumentStatus.failed ∧
    (fail_processing 7 processingDoc "").processing_error = some "" ∧
    (fail_processing 7 processingDoc "").processing_completed_at = some 7 := by
  exact ⟨rfl, rfl, rfl⟩

/-- C8, amended: for every document and every error message (no
non-emptiness check is enforced), `fail_processing` sets the status to
`failed`, sets `processing_completed_at`, sets `processing_error` to the
message, and leaves `analysis_results` (as well as `confidence_score` and
`extracted_text`) exactly as they were. -/
theorem c8_fail_processing_frame (now : Nat) (d : FinancialDocument)
    (msg : String) :
    (fail_processing now d msg).status = .failed ∧
    (fail_processing now d msg).processing_completed_at = some now ∧
    (fail_processing now d msg).processing_error = some msg ∧
    (fail_processing now d msg).analysis_results = d.analysis_results ∧
    (fail_processing now d msg).confidence_score = d.confidence_score ∧
    (fail_processing now d msg).extracted_text = d.extracted_text := by
  exact ⟨rfl, rfl, rfl, rfl, rfl, rfl⟩

/-! ### Claim C9 -/

/-- C9, counterexample: the claim that the tags collection contains no
duplicates after every mutation is false — the field validator strips and
lowercases but does not deduplicate, so the input `["a", "A"]` validates
to `["a", "a"]`, which has a duplicate. -/
theorem c9_counterexample :
    validate_tags (some ["a", "A"]) = ["a", "a"] ∧
    ¬ (["a", "a"] : List String).Nodup := by
  exact ⟨rfl, by decide⟩

/-- C9, amended: on construction/validation every resulting tag is the
stripped-lowercased form of some input tag, but duplicates in the input
survive; `add_tags` deduplicates the whole collection (its elements being
previous tags or stripped-lowercased new tags) and `remove_tags` only
removes elements and so preserves freedom from duplicates. -/
theorem c9_tags_cleaned :
    (∀ (v : List String) (t : String), t ∈ validate_tags (some v) →
      ∃ s ∈ v, t = pyLower (pyStrip s)) ∧
    (∀ (d : FinancialDocument) (new_tags : List String),
      (add_tags d new_tags).tags.Nodup ∧
      ∀ t ∈ (add_tags d new_tags).tags,
        t ∈ d.tags ∨ ∃ s ∈ new_tags, t = pyLower (pyStrip s)) ∧
    (∀ (d : FinancialDocument) (ts : List String), d.tags.Nodup →
      (remove_tags d ts).tags.Nodup) := by
  refine ⟨?_, ?_, ?_⟩
  · intro v t ht
    unfold validate_tags cleanTags at ht
    rw [List.mem_map] at ht
    obtain ⟨s, hs, hmap⟩ := ht
    exact ⟨s, (List.mem_filter.mp hs).1, hmap.symm⟩
  · intro d new_tags
    constructor
    · simp only [add_tags]
      exact List.nodup_dedup _
    · intro t ht
      simp only [add_tags] at ht
      rw [List.mem_dedup, List.mem_append] at ht
      rcases ht with h | h
      · exact Or.inl h
      · right
        unfold cleanTags at h
        rw [List.mem_map] at h
        obtain ⟨s, hs, hmap⟩ := h
        exact ⟨s, (List.mem_filter.mp hs).1, hmap.symm⟩
  · intro d ts hnd
    simp only [remove_tags]
    exact hnd.filter _

/-- C9, witness: the amended behaviors at concrete tag lists. -/
theorem c9_witness :
    (∃ s ∈ ["X "], "x" = pyLower (pyStrip s)) ∧
    (add_tags bobDoc ["B", "b"]).tags.Nodup ∧
    (remove_tags bobDoc ["z"]).tags.Nodup := by
  exact ⟨c9_tags_cleaned.1 ["X "] "x" (by decide),
         (c9_tags_cleaned.2.1 bobDoc ["B", "b"]).1,
         c9_tags_cleaned.2.2 bobDoc ["z"] (by decide)⟩

/-! ### Claim C10 -/

/-- C10, counterexample: the claim promises the "file too small"
rejection for every sub-100-byte buffer with valid magic, filename and
parse, but the hard-block scan runs first, so a 16-byte buffer containing
`/Launch` is rejected with that pattern's malicious-content error
instead. -/
theorem c10_counterexample :
    launchTiny.length < 100 ∧
    comprehensive_file_validation launchTiny "a.pdf" 1000000 false none none
        (.parsed cleanParse) constHash
      = .error (.maliciousContent (ascii "/Launch")) ∧
    VError.maliciousContent (ascii "/Launch") ≠ VError.fileTooSmall := by
  exact ⟨by decide, rfl, by decide⟩

/-- C10, amended: a buffer shorter than 100 bytes containing no
hard-block pattern that passes the filename, size, signature, MIME,
password and page checks is rejected with the file-too-small error (a
sub-100 buffer containing a hard-block pattern is rejected with the
pattern error instead), and no buffer shorter than 100 bytes is ever
accepted. -/
theorem c10_small_files_rejected :
    (∀ (content : List Nat) (filename : String) (m : Nat) (strict : Bool)
        (password mime : Option String) (pdf : ParsedPdf)
        (sha : List Nat → String),
      validate_filename filename = .ok () → content.length ≤ m →
      validate_file_signature content = .ok () →
      (strict = true → validate_mime_type mime = .ok ()) →
      (if pdf.is_encrypted then passwordGate pdf password else Except.ok ()) = .ok () →
      pdf.num_pages ≤ 1000 →
      hardPatternHit content = none →
      content.length < 100 →
      comprehensive_file_validation content filename m strict password mime
        (.parsed pdf) sha = .error .fileTooSmall) ∧
    (∀ (content : List Nat) (filename : String) (m : Nat) (strict : Bool)
        (password mime : Option String) (parse : ParseOutcome)
        (sha : List Nat → String) (v : Bool × String × Bool),
      content.length < 100 →
      comprehensive_file_validation content filename m strict password mime parse sha
        ≠ .ok v) := by
  constructor
  · intro content filename m strict password mime pdf sha hF hSize hSig hMime
      hGate hpages hnone hsmall
    rw [comp_structure content filename m strict password mime (.parsed pdf) sha
          hF hSize hSig hMime,
        structure_clean pdf content password hGate hpages,
        detect_of_small content hnone hsmall, andThen_error, finish_error]
  · intro content filename m strict password mime parse sha v hsmall hok
    have hD := comp_ok_detect content filename m strict password mime parse sha v hok
    have hlen := (detect_ok_inv content hD).2
    omega

/-- C10, witness: a clean 13-byte magic-prefixed buffer is rejected as
too small and is not accepted. -/
theorem c10_witness :
    comprehensive_file_validation tinyClean "a.pdf" 1000000 false none none
        (.parsed cleanParse) constHash = .error .fileTooSmall ∧
    comprehensive_file_validation tinyClean "a.pdf" 1000000 false none none
        (.parsed cleanParse) constHash ≠ .ok (true, "hash", false) := by
  exact ⟨c10_small_files_rejected.1 tinyClean "a.pdf" 1000000 false none none
           cleanParse constHash rfl (by decide) rfl
           (fun h => Bool.noConfusion h) rfl (by decide) rfl (by decide),
         c10_small_files_rejected.2 tinyClean "a.pdf" 1000000 false none none
           (.parsed cleanParse) constHash (true, "hash", false) (by decide)⟩

end FinDoc
